import Mathlib

/-!
# Verification of the assignment-answering service (`app.py`)

A shallow embedding of the single-module FastAPI service.  Pure string and
control-flow logic is translated directly from the source; external
collaborators (pandas parsing, the filesystem, the subprocess runner, the
remote LLM HTTP call, the SHA-256 compression function, werkzeug's
`secure_filename`) are modelled as explicit inputs: every distinct outcome the
source code can observe from such a collaborator is a constructor of an input
type, and the code's reaction to it is translated from the source.

Python exceptions are modelled with `Except`: a function that can let an
exception escape returns `Except PyExc α`; a `try`/`except` chain is a `match`
on the error, in the source's clause order, honouring the exception-class
hierarchy (`FileNotFoundError ⊂ IOError ⊂ Exception`, pandas errors and
`KeyError`/`TypeError` ⊂ `Exception`).
-/

namespace App

/-- The Python exceptions the module can observe or raise.  All constructors
model subclasses of `Exception`; the payload is `str(e)`. -/
inductive PyExc where
  | fileNotFound (msg : String)   -- FileNotFoundError (⊂ IOError)
  | ioError (msg : String)        -- other IOError / OSError
  | emptyData (msg : String)      -- pandas.errors.EmptyDataError
  | parserError (msg : String)    -- pandas.errors.ParserError
  | keyError (msg : String)       -- KeyError
  | typeError (msg : String)      -- TypeError
  | other (msg : String)          -- any other Exception
deriving DecidableEq

/-- `str(e)`: the message carried by the exception. -/
def PyExc.msg : PyExc → String
  | .fileNotFound m => m
  | .ioError m => m
  | .emptyData m => m
  | .parserError m => m
  | .keyError m => m
  | .typeError m => m
  | .other m => m

/-- A parsed pandas DataFrame as the source observes it: `df.shape`,
`df.columns`, and the opaque text renderings produced by
`df.head(n).to_string(index=False)` and `df.head().to_string()`. -/
structure Df where
  rows : Nat
  cols : Nat
  columns : List String
  headNoIndex : Nat → String
  headWithIndex : String

/-- The file-type tags `identify_file_type` can return. -/
inductive FileType where
  | zip | csv | excel | md | unknown
deriving DecidableEq

/-- What one uploaded (or extracted) file looks like to every probe/read the
source performs on it.  Each field is the outcome of one library call:
* `csvProbe`  — `pd.read_csv(path, nrows=1)`
* `csvFull`   — `pd.read_csv(path)`
* `excelProbe`— `pd.read_excel(path, nrows=1)`
* `excelAll`  — `pd.read_excel(path, sheet_name=None)` (sheets in native order)
* `textRead`  — reading the file as text
* `bytesRead` — reading the file's raw bytes (each byte a `Nat`)
* `zipOpen`   — what opening it as a ZIP archive would yield were the handle
  read synchronously: either the exception raised, or the entries in the
  archive's native order, each an entry name together with the `FileModel` of
  the entry's content (nested archives recurse).  (The source never gets this
  far: see `zipFileInitOnAsyncHandle`.) -/
inductive FileModel where
  | mk
    (csvProbe : Except PyExc Df)
    (csvFull : Except PyExc Df)
    (excelProbe : Except PyExc (List (String × Df)))
    (excelAll : Except PyExc (List (String × Df)))
    (textRead : Except PyExc String)
    (bytesRead : Except PyExc (List Nat))
    (zipOpen : Except PyExc (List (String × FileModel)))

def FileModel.csvProbe : FileModel → Except PyExc Df
  | .mk c _ _ _ _ _ _ => c

def FileModel.csvFull : FileModel → Except PyExc Df
  | .mk _ c _ _ _ _ _ => c

def FileModel.excelProbe : FileModel → Except PyExc (List (String × Df))
  | .mk _ _ e _ _ _ _ => e

def FileModel.excelAll : FileModel → Except PyExc (List (String × Df))
  | .mk _ _ _ e _ _ _ => e

def FileModel.textRead : FileModel → Except PyExc String
  | .mk _ _ _ _ t _ _ => t

def FileModel.bytesRead : FileModel → Except PyExc (List Nat)
  | .mk _ _ _ _ _ b _ => b

def FileModel.zipOpen : FileModel → Except PyExc (List (String × FileModel))
  | .mk _ _ _ _ _ _ z => z

/-! ## String helpers translated from the Python standard library -/

/-- Index of the last occurrence of `c` in `cs` starting from offset `i`,
`-1` when absent — Python's `str.rfind`. -/
def lastIdxOfAux (c : Char) : List Char → Nat → Int
  | [], _ => -1
  | x :: rest, i =>
    let r := lastIdxOfAux c rest (i + 1)
    if r ≥ 0 then r else if x = c then Int.ofNat i else -1

def lastIdxOf (c : Char) (cs : List Char) : Int :=
  lastIdxOfAux c cs 0

/-- The extension part of `os.path.splitext(p)` (posix rules): the suffix from
the last `.` on, provided that dot comes after the last `/` and the base name
is not made of leading dots only; `""` otherwise. -/
def splitextExt (p : String) : String :=
  let cs := p.toList
  let sepIndex := lastIdxOf '/' cs
  let dotIndex := lastIdxOf '.' cs
  if dotIndex > sepIndex then
    if (List.range cs.length).any
        (fun i => decide (sepIndex < (i : Int)) && decide ((i : Int) < dotIndex)
          && decide (cs.get? i ≠ some '.')) then
      String.mk (cs.drop dotIndex.toNat)
    else ""
  else ""

/-- Python's `str.lower` (ASCII case mapping, which covers every string the
source compares; Lean's `Char.toLower` is the same ASCII mapping). -/
def strLower (s : String) : String :=
  String.mk (s.toList.map Char.toLower)

/-- Python's `str.endswith`. -/
def strEndsWith (s suffix : String) : Bool :=
  List.isSuffixOf suffix.toList s.toList

/-- Substring occurrence over character lists: some suffix of `s` starts
with `pat`. -/
def containsSub : List Char → List Char → Bool
  | s, pat =>
    if List.isPrefixOf pat s then true
    else
      match s with
      | [] => false
      | _ :: rest => containsSub rest pat

/-- Python's substring test `pat in s`. -/
def strContains (s pat : String) : Bool :=
  containsSub s.toList pat.toList

/-- The characters Python's `str.strip()` removes. -/
def isPySpace (c : Char) : Bool :=
  c = ' ' || c = '\t' || c = '\n' || c = '\r' || c = '\x0b' || c = '\x0c'

/-- Python's `str.strip()`: drop leading and trailing whitespace. -/
def pyStrip (s : String) : String :=
  String.mk (((s.toList.dropWhile isPySpace).reverse.dropWhile isPySpace).reverse)

/-! ## Configuration (module level in the source) -/

/-- `ALLOWED_EXTENSIONS = {'csv', 'xlsx', 'xls', 'zip', 'md'}` (a set; the
`any` below is order-independent). -/
def ALLOWED_EXTENSIONS : List String := ["csv", "xlsx", "xls", "zip", "md"]

/-- `MAX_FILE_SIZE = 50 * 1024 * 1024`. -/
def MAX_FILE_SIZE : Nat := 50 * 1024 * 1024

/-- `is_file_allowed`: `any(filename.lower().endswith(ext) for ext in
ALLOWED_EXTENSIONS)`.  Note the suffix test is on the bare extension string,
with no dot. -/
def is_file_allowed (filename : String) : Bool :=
  ALLOWED_EXTENSIONS.any fun ext => strEndsWith (strLower filename) ext

/-- The `extension_map` dictionary of `identify_file_type`. -/
def extension_map (ext : String) : Option FileType :=
  if ext = ".zip" then some .zip
  else if ext = ".csv" then some .csv
  else if ext = ".xlsx" then some .excel
  else if ext = ".xls" then some .excel
  else if ext = ".md" then some .md
  else none

/-- `identify_file_type`: extension lookup first; on a miss, probe as CSV
(`except EmptyDataError: pass` falls through to `return 'unknown'`; any other
exception moves on to the Excel probe). -/
def identify_file_type (file_path : String) (f : FileModel) : FileType :=
  let extension := strLower (splitextExt file_path)
  match extension_map extension with
  | some t => t
  | none =>
    match f.csvProbe with
    | .ok _ => .csv
    | .error e =>
      match e with
      | .emptyData _ => .unknown
      | _ =>
        match f.excelProbe with
        | .ok _ => .excel
        | .error _ => .unknown

/-! ## Content summarizers

Each handler's `try`/`except` chain is translated as a `match`: the `.ok`
branch is the `try` body, the error branches are the `except` clauses in
source order, with a trailing catch-all for `except Exception`.  Each handler
returns `Except PyExc String`: the value the Python coroutine would return, or
the exception that would escape it.  `san` models werkzeug's
`secure_filename` (an external collaborator); a ZIP entry named `n` is
re-dispatched through the temporary path `san n`, whose extension is all the
recursive call consumes. -/

/-- `handle_csv_file` (the preview size `num_preview_rows` defaults to 5 at
the only call site, in `collect_file_data`). -/
def handle_csv_file (csv_path : String) (f : FileModel) (num_preview_rows : Nat) :
    Except PyExc String :=
  match f.csvFull with
  | .ok df =>
    .ok ("CSV file with " ++ toString df.rows ++ " rows and "
      ++ toString df.cols ++ " columns.\n"
      ++ "Columns: " ++ String.intercalate ", " df.columns ++ ".\n"
      ++ "First " ++ toString num_preview_rows ++ " rows:\n"
      ++ df.headNoIndex num_preview_rows)
  | .error (.fileNotFound _) =>
    .ok ("Error: The file '" ++ csv_path ++ "' was not found.")
  | .error (.emptyData _) => .ok "Error: The file is empty."
  | .error (.parserError _) => .ok "Error: There was a problem parsing the file."
  | .error e => .ok ("Error processing CSV: " ++ e.msg)

/-- `handle_excel_file`: one sub-report per sheet, joined with a blank line. -/
def handle_excel_file (excel_path : String) (f : FileModel) : Except PyExc String :=
  match f.excelAll with
  | .ok sheets =>
    .ok (String.intercalate "\n\n" (sheets.map fun s =>
      "Sheet '" ++ s.1 ++ "' has " ++ toString s.2.rows ++ " rows and "
      ++ toString s.2.columns.length ++ " columns. "
      ++ "Columns: " ++ String.intercalate ", " s.2.columns
      ++ ". First few rows:\n" ++ s.2.headWithIndex))
  | .error (.fileNotFound _) =>
    .ok ("Error: The file '" ++ excel_path ++ "' was not found.")
  | .error (.emptyData _) => .ok "Error: The Excel file is empty."
  | .error e => .ok ("Error processing Excel file: " ++ e.msg)

/-- `handleMarkdownFile`: clauses `FileNotFoundError`, `IOError`, `Exception`
in source order (`FileNotFoundError` is an `IOError`, so it must be matched
first, as in the source). -/
def handleMarkdownFile (f : FileModel) : Except PyExc String :=
  match f.textRead with
  | .ok content => .ok ("Markdown file content:\n" ++ content)
  | .error (.fileNotFound _) => .ok "Error: The specified Markdown file was not found."
  | .error (.ioError m) => .ok ("Error reading Markdown file: " ++ m)
  | .error e => .ok ("An unexpected error occurred: " ++ e.msg)

/-- Lines 99-100: `zipfile.ZipFile(zip_file, 'r')` receives the **aiofiles
async handle** `zip_file`, whose `seek`/`tell`/`read` are coroutine
functions.  `ZipFile.__init__` → `_EndRecData` calls `fpin.read()` without
awaiting it and takes `len(...)` of the returned coroutine object: a
`TypeError`, raised before a single archive byte is parsed — for every
archive, valid or not. -/
def zipFileInitOnAsyncHandle : Except PyExc Unit :=
  .error (.typeError "object of type 'coroutine' has no len()")

/-- Line 108: `file_content = await f.read()` where `f` is the synchronous
`ZipExtFile` returned by `zip_ref.open(file)`: `f.read()` returns `bytes`,
which is not awaitable, so the `await` raises `TypeError` at the first
non-directory entry (reachable only if the open of line 100 had
succeeded). -/
def awaitSyncZipExtFileRead (_entry : FileModel) : Except PyExc (List Nat) :=
  .error (.typeError "object bytes can't be used in 'await' expression")

mutual

/-- `collect_file_data`: classify, then dispatch through the
`processing_functions` table; an unmapped type yields the literal
`"Unsupported file type"`.  No `try` of its own. -/
def collect_file_data (san : String → String) (file_path : String) (f : FileModel) :
    Except PyExc String :=
  match identify_file_type file_path f with
  | .zip => handle_zip_file san f
  | .csv => handle_csv_file file_path f 5
  | .excel => handle_excel_file file_path f
  | .md => handleMarkdownFile f
  | .unknown => .ok "Unsupported file type"
termination_by (sizeOf f, 1)

/-- `handle_zip_file`: the whole open-and-iterate body sits in one
`try … except Exception`.  The body's very first step, lines 99-100, passes
the aiofiles async handle to the synchronous `zipfile.ZipFile`, which raises
`TypeError` (`zipFileInitOnAsyncHandle`) before the archive's own
open outcome (`zipOpen`) or the entry loop (`zipEntryBlocks`) can be
reached, so the catch-all converts every call into the single string
`"Error processing ZIP file: …"` and the per-entry happy path below it is
unreachable. -/
def handle_zip_file (san : String → String) (f : FileModel) : Except PyExc String :=
  match zipFileInitOnAsyncHandle with
  | .error e => .ok ("Error processing ZIP file: " ++ e.msg)
  | .ok _ =>
    match f with
    | .mk _ _ _ _ _ _ (.error e) =>
      .ok ("Error processing ZIP file: " ++ e.msg)
    | .mk _ _ _ _ _ _ (.ok entries) =>
      match zipEntryBlocks san entries with
      | .ok blocks => .ok (String.intercalate "\n" blocks)
      | .error e => .ok ("Error processing ZIP file: " ++ e.msg)
termination_by (sizeOf f, 0)

/-- The loop body of `handle_zip_file` (itself unreachable, since the open
of line 100 always raises first): skip directory entries (names ending in
`/`); read the entry's bytes with `await f.read()` — which raises `TypeError`
on the synchronous `ZipExtFile` (`awaitSyncZipExtFileRead`); were that read
to succeed, write the bytes to the temporary path `san name`, re-dispatch the
entry through `collect_file_data`, and record
`"File '<name>' in ZIP contains:\n<info>"` in iteration order. -/
def zipEntryBlocks (san : String → String) :
    List (String × FileModel) → Except PyExc (List String)
  | [] => .ok []
  | (name, fm) :: rest =>
    if strEndsWith name "/" then zipEntryBlocks san rest
    else
      match awaitSyncZipExtFileRead fm with
      | .error e => .error e
      | .ok _file_content =>
        match collect_file_data san (san name) fm with
        | .error e => .error e
        | .ok info =>
          match zipEntryBlocks san rest with
          | .error e => .error e
          | .ok blocks =>
            .ok (("File '" ++ name ++ "' in ZIP contains:\n" ++ info) :: blocks)
termination_by l => (sizeOf l, 2)

end

/-! ## `compute_sha256`

`hashlib.sha256` is an external collaborator.  Its incremental interface is
modelled by its contract: the hash object's state is the list of bytes
absorbed so far (`update` appends the chunk), and `hexdigest` applies the
SHA-256 digest function — an abstract parameter `H : List Nat → String` — to
the absorbed bytes. -/

/-- The read loop of `compute_sha256`: `chunk = await f.read(8192)`;
an empty chunk ends the loop, otherwise `sha256_hash.update(chunk)`. -/
def sha256ReadLoop (absorbed : List Nat) (rest : List Nat) : List Nat :=
  if rest = [] then absorbed
  else sha256ReadLoop (absorbed ++ rest.take 8192) (rest.drop 8192)
termination_by rest.length
decreasing_by
  simp only [List.length_drop]
  have : rest.length ≠ 0 := by simpa [List.length_eq_zero] using ‹rest ≠ []›
  omega

/-- `compute_sha256`: stream the file through the hash in 8 KiB chunks;
any exception (here: a failing read) becomes
`"Error calculating SHA256: …"`. -/
def compute_sha256 (H : List Nat → String) (f : FileModel) : String :=
  match f.bytesRead with
  | .ok bs => H (sha256ReadLoop [] bs)
  | .error e => "Error calculating SHA256: " ++ e.msg

/-! ## `generate_response`

The `requests.post` call is an external collaborator, modelled by
`post : String → LlmResult`, mapping the composed message prompt to the
outcome the source can observe. -/

/-- A candidate of the model response: `candidates[i]` with, when the nested
chain `['content']['parts'][0]['text']` is present, its text. -/
structure Candidate where
  text : Option String

/-- The observable outcome of `requests.post` + `raise_for_status` +
`response.json().get('candidates', [])`:
* `requestException` — any `requests.exceptions.RequestException`: connection
  or timeout failure, or a non-2xx status raised by `raise_for_status`;
* `success cands` — a 2xx response whose parsed body yields the candidate
  list `cands` (`[]` when the key is absent). -/
inductive LlmResult where
  | requestException (msg : String)
  | success (cands : List Candidate)

/-- The `message_prompt` f-string: the `Attached file information` block is
present exactly when `file_info` is. -/
def message_prompt (question : String) (file_info : Option String) : String :=
  "Assignment question: " ++ question ++ "\n\n"
  ++ (match file_info with
      | some info => "Attached file information:\n" ++ info ++ "\n"
      | none => "")
  ++ "Please provide the exact answer to be entered in the assignment."

/-- `generate_response`: the `try` body posts the payload; the only `except`
clause catches `requests.exceptions.RequestException`.  With a non-empty
candidate list, `candidates[0]['content']['parts'][0]['text']` is read with
plain subscripts: when the chain is absent a `KeyError` (or `IndexError` /
`TypeError`, all modelled by `.keyError`) escapes uncaught. -/
def generate_response (question : String) (file_info : Option String)
    (post : String → LlmResult) : Except PyExc String :=
  match post (message_prompt question file_info) with
  | .requestException m => .ok ("Error calling LLM API: " ++ m)
  | .success cands =>
    match cands with
    | [] => .ok "Error: Could not extract answer from model response"
    | c :: _ =>
      match c.text with
      | some t => .ok (pyStrip t)
      | none => .error (.keyError "'content'")

/-! ## The endpoint `answer_question` -/

/-- A request's attached file: the declared name, the stored size in bytes
(what `os.path.getsize` reports after the save), and the saved content. -/
structure FileReq where
  filename : String
  size : Nat
  model : FileModel

/-- How a request can end without reaching `return JSONResponse(...)`:
an `HTTPException(status, detail)` raised by the handler, or any other
exception escaping it (FastAPI turns the latter into a 500). -/
inductive ReqErr where
  | http (status : Nat) (detail : String)
  | exc (e : PyExc)
deriving DecidableEq

/-- The local-command dispatch of `answer_question` (the `if`/`elif` chain on
the lowered question text and the classified `file_type`), returning the
locally computed answer, or `none` when no rule matched and `answer` stays
`None`.  `runCmd` models `run_command` on the executed command string. -/
def localAnswer (H : List Nat → String) (runCmd : String → String)
    (question : String) (file_path : String) (file_type : FileType)
    (f : FileModel) : Option String :=
  if strContains (strLower question) "sha256sum" && decide (file_type = .md) then
    some (compute_sha256 H f)
  else if strContains (strLower question) "prettier"
      && strContains (strLower question) "sha256sum"
      && decide (file_type = .md) then
    some (runCmd ("npx -y prettier@3.4.2 " ++ file_path ++ " | sha256sum"))
  else if strContains (strLower question) "code -s" then
    some (runCmd "code -s")
  else none

/-- The endpoint body, reading `await is_file_allowed(...)` as the
synchronous call the surrounding code is written for.  (The faithful
rendering of that `await` is `answer_question_strictAwait` below; this
version lets the logic downstream of line 284 be stated and checked.)

Steps, as in the source: extension validation → save → size check →
classification → summarization → local-command dispatch → remote delegation
when no rule matched.  The saved path is `temp_dir` joined with
`secure_filename(filename)`; only its extension is ever consumed, so the path
is modelled as `san filename`.  The `finally` block only deletes files and is
value-irrelevant. -/
def answer_question (san : String → String) (H : List Nat → String)
    (runCmd : String → String) (post : String → LlmResult)
    (question : String) (file : Option FileReq) : Except ReqErr String :=
  match file with
  | none =>
    (generate_response question none post).mapError ReqErr.exc
  | some f =>
    if !is_file_allowed f.filename then
      .error (.http 400 "Invalid file type")
    else
      let file_path := san f.filename
      if f.size > MAX_FILE_SIZE then
        .error (.http 400 "File too large")
      else
        let file_type := identify_file_type file_path f.model
        match collect_file_data san file_path f.model with
        | .error e => .error (.exc e)
        | .ok file_info =>
          match localAnswer H runCmd question file_path file_type f.model with
          | some answer => .ok answer
          | none =>
            (generate_response question (some file_info) post).mapError ReqErr.exc

/-- Python semantics of line 284: `await is_file_allowed(file.filename)`.
`is_file_allowed` is a plain `def`, so the call returns a `bool`, and `bool`
has no `__await__`: the `await` raises `TypeError` after the call is
evaluated, before its verdict can be inspected. -/
def awaitPlainBool (_verdict : Bool) : Except PyExc Bool :=
  .error (.typeError "object bool can't be used in 'await' expression")

/-- The endpoint with the `await` of line 284 modelled faithfully: when a
file is attached, `awaitPlainBool` interposes between the computed verdict
and the `if not …` test; the rest of the handler is the same pipeline as
`answer_question`. -/
def answer_question_strictAwait (san : String → String) (H : List Nat → String)
    (runCmd : String → String) (post : String → LlmResult)
    (question : String) (file : Option FileReq) : Except ReqErr String :=
  match file with
  | none =>
    (generate_response question none post).mapError ReqErr.exc
  | some f =>
    match awaitPlainBool (is_file_allowed f.filename) with
    | .error e => .error (.exc e)
    | .ok verdict =>
      if !verdict then
        .error (.http 400 "Invalid file type")
      else
        let file_path := san f.filename
        if f.size > MAX_FILE_SIZE then
          .error (.http 400 "File too large")
        else
          let file_type := identify_file_type file_path f.model
          match collect_file_data san file_path f.model with
          | .error e => .error (.exc e)
          | .ok file_info =>
            match localAnswer H runCmd question file_path file_type f.model with
            | some answer => .ok answer
            | none =>
              (generate_response question (some file_info) post).mapError ReqErr.exc

/-! ## Helper lemmas -/

theorem handle_csv_file_ok (csv_path : String) (f : FileModel) (num : Nat) :
    ∃ s, handle_csv_file csv_path f num = .ok s := by
  unfold handle_csv_file
  rcases f.csvFull with e | df
  · rcases e with m | m | m | m | m | m | m <;> exact ⟨_, rfl⟩
  · exact ⟨_, rfl⟩

theorem handle_excel_file_ok (excel_path : String) (f : FileModel) :
    ∃ s, handle_excel_file excel_path f = .ok s := by
  unfold handle_excel_file
  rcases f.excelAll with e | sheets
  · rcases e with m | m | m | m | m | m | m <;> exact ⟨_, rfl⟩
  · exact ⟨_, rfl⟩

theorem handleMarkdownFile_ok (f : FileModel) :
    ∃ s, handleMarkdownFile f = .ok s := by
  unfold handleMarkdownFile
  rcases f.textRead with e | content
  · rcases e with m | m | m | m | m | m | m <;> exact ⟨_, rfl⟩
  · exact ⟨_, rfl⟩

theorem handle_zip_file_ok (san : String → String) (f : FileModel) :
    ∃ s, handle_zip_file san f = .ok s := by
  rcases f with ⟨cp, cf, ep, ea, tr, br, z | entries⟩ <;>
    · rw [handle_zip_file]
      exact ⟨_, rfl⟩

theorem collect_file_data_ok (san : String → String) (file_path : String)
    (f : FileModel) : ∃ s, collect_file_data san file_path f = .ok s := by
  rw [collect_file_data]
  rcases hty : identify_file_type file_path f with _ | _ | _ | _ | _
  · exact handle_zip_file_ok san f
  · exact handle_csv_file_ok file_path f 5
  · exact handle_excel_file_ok file_path f
  · exact handleMarkdownFile_ok f
  · exact ⟨_, rfl⟩

theorem sha256ReadLoop_eq (rest acc : List Nat) :
    sha256ReadLoop acc rest = acc ++ rest := by
  have main : ∀ (n : Nat) (rest acc : List Nat), rest.length ≤ n →
      sha256ReadLoop acc rest = acc ++ rest := by
    intro n
    induction n with
    | zero =>
      intro rest acc h
      have hnil : rest = [] := by
        cases rest with
        | nil => rfl
        | cons x xs => simp at h
      subst hnil
      rw [sha256ReadLoop]
      simp
    | succ n ih =>
      intro rest acc h
      rw [sha256ReadLoop]
      by_cases hnil : rest = []
      · simp [hnil]
      · simp only [hnil, if_false]
        rw [ih (rest.drop 8192) (acc ++ rest.take 8192) (by simp; omega)]
        simp
  exact main rest.length rest acc le_rfl

/-- After validation and the size check pass, the handler either returns an
answer or lets an exception escape; it raises no further `HTTPException`. -/
theorem answer_question_after_checks (san : String → String)
    (H : List Nat → String) (runCmd : String → String)
    (post : String → LlmResult) (q : String) (f : FileReq)
    (h : is_file_allowed f.filename = true) (hs : ¬ f.size > MAX_FILE_SIZE) :
    (∃ a, answer_question san H runCmd post q (some f) = .ok a) ∨
    (∃ e, answer_question san H runCmd post q (some f) = .error (.exc e)) := by
  obtain ⟨info, hinfo⟩ := collect_file_data_ok san (san f.filename) f.model
  unfold answer_question
  simp only [h, Bool.not_true, Bool.false_eq_true, if_false, if_neg hs, hinfo]
  rcases hl : localAnswer H runCmd q (san f.filename)
      (identify_file_type (san f.filename) f.model) f.model with _ | a
  · rcases hg : generate_response q (some info) post with e | s
    · exact Or.inr ⟨e, by simp [hg, Except.mapError]⟩
    · exact Or.inl ⟨s, by simp [hg, Except.mapError]⟩
  · exact Or.inl ⟨a, rfl⟩

/-! ## Concrete fixtures for witnesses and counterexamples -/

/-- Stand-in for the SHA-256 hex-digest function (opaque to the source). -/
def hashC : List Nat → String := fun bs => "sha256-of-" ++ toString bs.length

/-- Stand-in for `run_command`: every command prints `LOCAL OUTPUT`. -/
def runC : String → String := fun _ => "LOCAL OUTPUT"

/-- A remote collaborator that always answers `REMOTE ANSWER`. -/
def postR : String → LlmResult := fun _ => .success [⟨some "REMOTE ANSWER"⟩]

/-- A remote collaborator returning a candidate without the nested
`content.parts[0].text` chain. -/
def postMalformed : String → LlmResult := fun _ => .success [⟨none⟩]

def dfEx : Df :=
  { rows := 2, cols := 2, columns := ["a", "b"],
    headNoIndex := fun _ => "a b\n1 2", headWithIndex := "   a  b\n0  1  2" }

/-- A file that parses as CSV and is nothing else. -/
def fmCsvEx : FileModel :=
  .mk (.ok dfEx) (.ok dfEx) (.error (.other "not excel"))
    (.error (.other "not excel")) (.ok "a,b\n1,2") (.ok [97, 44, 98])
    (.error (.other "File is not a zip file"))

/-- A text file (content `hello`). -/
def fmMdEx : FileModel :=
  .mk (.error (.other "parse failure")) (.error (.other "parse failure"))
    (.error (.other "not excel")) (.error (.other "not excel"))
    (.ok "hello") (.ok [104, 101, 108, 108, 111])
    (.error (.other "File is not a zip file"))

/-- An empty file: the CSV probe raises `EmptyDataError`, while the Excel
probe would succeed. -/
def fmEmptyProbe : FileModel :=
  .mk (.error (.emptyData "No columns to parse from file"))
    (.error (.emptyData "No columns to parse from file"))
    (.ok [("Sheet1", dfEx)]) (.ok [("Sheet1", dfEx)])
    (.ok "") (.ok []) (.error (.other "File is not a zip file"))

/-- A readable archive with a directory marker and one non-directory
(markdown) entry. -/
def fmZipEx : FileModel :=
  .mk (.error (.other "bad")) (.error (.other "bad")) (.error (.other "bad"))
    (.error (.other "bad")) (.error (.other "bad")) (.ok [80, 75])
    (.ok [("docs/", fmMdEx), ("a.md", fmMdEx)])

/-! ## Claims -/

/-- C2: for every request with an attached file, the handler `await`s the
result of the plain (non-coroutine) function `is_file_allowed`, so a
`TypeError` is raised before any validation verdict, size check, or
summarization is reached, and no file-attached request completes normally:
the endpoint with faithful `await` semantics ends in the `TypeError` for
every question, file name, size, and content. -/
theorem c2_await_typeerror (san : String → String) (H : List Nat → String)
    (runCmd : String → String) (post : String → LlmResult) (q : String)
    (f : FileReq) :
    answer_question_strictAwait san H runCmd post q (some f)
      = .error (.exc (.typeError "object bool can't be used in 'await' expression")) :=
  rfl

/-- C9: the summarization pipeline never raises past its own boundary:
`collect_file_data` and the CSV, Excel, Markdown and ZIP handlers return an
`.ok` summary string for every file whatsoever — every internal failure is
converted into a descriptive error string. -/
theorem c9_summarizers_never_raise (san : String → String) (file_path : String)
    (f : FileModel) (num : Nat) :
    (∃ s, collect_file_data san file_path f = .ok s) ∧
    (∃ s, handle_csv_file file_path f num = .ok s) ∧
    (∃ s, handle_excel_file file_path f = .ok s) ∧
    (∃ s, handleMarkdownFile f = .ok s) ∧
    (∃ s, handle_zip_file san f = .ok s) :=
  ⟨collect_file_data_ok san file_path f, handle_csv_file_ok file_path f num,
   handle_excel_file_ok file_path f, handleMarkdownFile_ok f,
   handle_zip_file_ok san f⟩

/-- C5: contrary to the claim, `handle_zip_file` never produces per-entry
report blocks: its first step hands the aiofiles async handle to the
synchronous `zipfile.ZipFile` (line 100), which raises `TypeError` on the
un-awaited coroutine before a single archive byte is parsed — and line 108's
`await f.read()` on the synchronous `ZipExtFile` would raise `TypeError` at
the first non-directory entry even if the open had succeeded — so the
catch-all of line 123 turns every archive, readable or not, into the single
string `Error processing ZIP file: …`; in particular the concrete readable
archive `fmZipEx` with one non-directory entry yields that error string and
not its one report block. -/
theorem c5_zip_always_single_error :
    (∀ (san : String → String) (f : FileModel),
      handle_zip_file san f
        = .ok ("Error processing ZIP file: object of type 'coroutine' has no len()"))
    ∧ handle_zip_file (fun s => s) fmZipEx
      = .ok ("Error processing ZIP file: object of type 'coroutine' has no len()") := by
  have main : ∀ (san : String → String) (f : FileModel),
      handle_zip_file san f
        = .ok ("Error processing ZIP file: object of type 'coroutine' has no len()") := by
    intro san f
    rcases f with ⟨cp, cf, ep, ea, tr, br, z | entries⟩ <;>
      · rw [handle_zip_file]
        rfl
  exact ⟨main, main (fun s => s) fmZipEx⟩

/-- C10: the `prettier` branch of the local-command dispatch is unreachable:
its condition implies the first branch's condition, which is checked first,
so whenever the `prettier` condition holds the dispatch answers with the
plain streaming SHA-256 digest instead. -/
theorem c10_prettier_unreachable (H : List Nat → String)
    (runCmd : String → String) (q file_path : String) (ft : FileType)
    (f : FileModel)
    (h : (strContains (strLower q) "prettier"
        && strContains (strLower q) "sha256sum"
        && decide (ft = FileType.md)) = true) :
    localAnswer H runCmd q file_path ft f = some (compute_sha256 H f) := by
  simp only [Bool.and_eq_true] at h
  have h1 : strContains (strLower q) "sha256sum" = true := h.1.2
  have h2 : decide (ft = FileType.md) = true := h.2
  unfold localAnswer
  rw [h1, h2]
  simp

/-- C10 witness: a question naming both `prettier` and `sha256sum` over a
markdown file is answered by the first (digest) branch. -/
theorem c10_prettier_unreachable_witness :
    localAnswer hashC runC "Run prettier then sha256sum" "a.md" FileType.md fmMdEx
      = some (compute_sha256 hashC fmMdEx) :=
  c10_prettier_unreachable hashC runC "Run prettier then sha256sum" "a.md"
    FileType.md fmMdEx (by decide)

/-- C7: for a request whose question contains `sha256sum` and whose valid,
size-accepted file classifies as markdown, the answer is the SHA-256 digest
of the file's exact byte content — the streaming 8 KiB-chunk computation
(`sha256ReadLoop`) absorbs exactly the whole content, for every size
including the empty file and multi-chunk files. -/
theorem c7_sha256_streaming (san : String → String) (H : List Nat → String)
    (runCmd : String → String) (post : String → LlmResult) (q fname : String)
    (size : Nat) (fm : FileModel) (bs : List Nat)
    (hname : is_file_allowed fname = true)
    (hsize : ¬ size > MAX_FILE_SIZE)
    (hq : strContains (strLower q) "sha256sum" = true)
    (hmd : identify_file_type (san fname) fm = FileType.md)
    (hbytes : fm.bytesRead = .ok bs) :
    answer_question san H runCmd post q (some ⟨fname, size, fm⟩) = .ok (H bs)
      ∧ sha256ReadLoop [] bs = bs := by
  have hloop : sha256ReadLoop [] bs = bs := by
    rw [sha256ReadLoop_eq]; simp
  refine ⟨?_, hloop⟩
  obtain ⟨info, hinfo⟩ := collect_file_data_ok san (san fname) fm
  have hcs : compute_sha256 H fm = H bs := by
    unfold compute_sha256
    rw [hbytes]
    simp [hloop]
  have hla : localAnswer H runCmd q (san fname) FileType.md fm
      = some (compute_sha256 H fm) := by
    unfold localAnswer
    rw [hq]
    simp
  unfold answer_question
  simp only [hname, Bool.not_true, Bool.false_eq_true, if_false, if_neg hsize,
    hinfo, hmd, hla, hcs]

/-- C7 witness: a 5-byte markdown file under a `sha256sum` question is
answered with the digest of its bytes. -/
theorem c7_sha256_streaming_witness :
    answer_question (fun s => s) hashC runC postR "sha256sum of this file"
      (some ⟨"notes.md", 5, fmMdEx⟩) = .ok (hashC [104, 101, 108, 108, 111]) :=
  (c7_sha256_streaming (fun s => s) hashC runC postR "sha256sum of this file"
    "notes.md" 5 fmMdEx [104, 101, 108, 108, 111]
    (by decide) (by decide) (by decide) (by decide) rfl).1

/-- C8: for a saved upload that passed name validation, the request fails
with `400 File too large` exactly when the stored size strictly exceeds
52 428 800 bytes — for every file content (the check precedes classification
and summarization), so a file of exactly 52 428 800 bytes is accepted. -/
theorem c8_size_limit (san : String → String) (H : List Nat → String)
    (runCmd : String → String) (post : String → LlmResult) (q fname : String)
    (size : Nat) (fm : FileModel)
    (hname : is_file_allowed fname = true) :
    (answer_question san H runCmd post q (some ⟨fname, size, fm⟩)
        = .error (.http 400 "File too large"))
      ↔ size > 52428800 := by
  have hmax : MAX_FILE_SIZE = 52428800 := by norm_num [MAX_FILE_SIZE]
  constructor
  · intro h
    by_contra hs
    have hs' : ¬ size > MAX_FILE_SIZE := by rw [hmax]; exact hs
    rcases answer_question_after_checks san H runCmd post q ⟨fname, size, fm⟩
        hname hs' with ⟨a, ha⟩ | ⟨e, he⟩
    · rw [ha] at h; exact absurd h (by simp)
    · rw [he] at h; exact absurd h (by simp)
  · intro h
    unfold answer_question
    simp only [hname, Bool.not_true, Bool.false_eq_true, if_false]
    rw [if_pos (by rw [hmax]; exact h)]

/-- C8 witness: one byte over the ceiling is rejected with `File too large`;
exactly at the ceiling it is not. -/
theorem c8_size_limit_witness :
    (answer_question (fun s => s) hashC runC postR "q"
        (some ⟨"big.csv", 52428801, fmCsvEx⟩)
      = .error (.http 400 "File too large"))
    ∧ ¬ (answer_question (fun s => s) hashC runC postR "q"
        (some ⟨"big.csv", 52428800, fmCsvEx⟩)
      = .error (.http 400 "File too large")) :=
  ⟨(c8_size_limit (fun s => s) hashC runC postR "q" "big.csv" 52428801 fmCsvEx
      (by decide)).mpr (by norm_num),
   fun h => by
    have h2 := (c8_size_limit (fun s => s) hashC runC postR "q" "big.csv"
      52428800 fmCsvEx (by decide)).mp h
    omega⟩

/-- C1 counterexample: the upload name `readmemd` has no extension at all
(`os.path.splitext` yields `""`, which is not in the allowed set), yet the
request is not rejected with `400 Invalid file type`, because
`is_file_allowed` tests `str.endswith` on the bare extension strings with no
dot — refuting the claim that acceptance is equivalent to the extension being
in the allowed set. -/
theorem c1_extension_counterexample :
    splitextExt "readmemd" = ""
    ∧ ALLOWED_EXTENSIONS.contains "" = false
    ∧ answer_question (fun s => s) hashC runC postR "what"
        (some ⟨"readmemd", 3, fmCsvEx⟩) ≠ .error (.http 400 "Invalid file type") := by
  refine ⟨by decide, by decide, ?_⟩
  rcases answer_question_after_checks (fun s => s) hashC runC postR "what"
      ⟨"readmemd", 3, fmCsvEx⟩ (by decide) (by decide) with ⟨a, ha⟩ | ⟨e, he⟩
  · rw [ha]; simp
  · rw [he]; simp

/-- C1 (amended): a file-attached request is rejected with
`400 Invalid file type` — before any content is read: for every content and
size — exactly when the lowercased file name does not end with one of the
strings `csv`, `xlsx`, `xls`, `zip`, `md` (no dot required). -/
theorem c1_validation_amended (san : String → String) (H : List Nat → String)
    (runCmd : String → String) (post : String → LlmResult) (q fname : String)
    (size : Nat) (fm : FileModel) :
    (answer_question san H runCmd post q (some ⟨fname, size, fm⟩)
        = .error (.http 400 "Invalid file type"))
      ↔ (ALLOWED_EXTENSIONS.any fun ext =>
          strEndsWith (strLower fname) ext) = false := by
  constructor
  · intro h
    by_contra hall
    have hname : is_file_allowed fname = true := by
      unfold is_file_allowed
      cases hc : ALLOWED_EXTENSIONS.any fun ext => strEndsWith (strLower fname) ext
      · exact absurd hc hall
      · rfl
    by_cases hs : size > MAX_FILE_SIZE
    · unfold answer_question at h
      simp only [hname, Bool.not_true, Bool.false_eq_true, if_false,
        if_pos hs] at h
      exact absurd h (by simp)
    · rcases answer_question_after_checks san H runCmd post q ⟨fname, size, fm⟩
          hname hs with ⟨a, ha⟩ | ⟨e, he⟩
      · rw [ha] at h; exact absurd h (by simp)
      · rw [he] at h; exact absurd h (by simp)
  · intro h
    have hname : is_file_allowed fname = false := h
    unfold answer_question
    simp [hname]

/-- C1 witness: an `exe` upload is rejected with `400 Invalid file type`. -/
theorem c1_validation_witness :
    answer_question (fun s => s) hashC runC postR "q"
        (some ⟨"virus.exe", 3, fmCsvEx⟩)
      = .error (.http 400 "Invalid file type") :=
  (c1_validation_amended (fun s => s) hashC runC postR "q" "virus.exe" 3
    fmCsvEx).mpr (by decide)

/-- C3: with question text `code -s` and no attached file, the local command
is NOT run: the whole local-command chain sits inside the `if file:` block,
so the handler delegates to the remote model and returns its answer
(`REMOTE ANSWER` here), not the local command's output (`LOCAL OUTPUT`). -/
theorem c3_code_s_remote_delegation :
    answer_question (fun s => s) hashC runC postR "code -s" none
        = .ok "REMOTE ANSWER"
      ∧ runC "code -s" = "LOCAL OUTPUT" := by
  constructor
  · rfl
  · rfl

/-- C4 counterexample: a 2xx model response whose single candidate lacks the
nested `content.parts[0].text` chain makes `generate_response` raise a
`KeyError` instead of returning a descriptive error string, and the request
then terminates without a JSON response. -/
theorem c4_malformed_counterexample :
    generate_response "q" none postMalformed = .error (.keyError "'content'")
    ∧ answer_question (fun s => s) hashC runC postMalformed "q" none
        = .error (.exc (.keyError "'content'")) :=
  ⟨rfl, rfl⟩

/-- C4 (amended): `generate_response` returns a descriptive error string —
rather than raising — when the call itself fails with a
`requests.RequestException` (network failure or non-2xx status) or when the
response's candidate list is empty; when the first candidate carries the
nested text field, that text, stripped, is the answer. -/
theorem c4_generate_response_amended (q : String) (fi : Option String)
    (post : String → LlmResult) (m t : String) (rest : List Candidate) :
    (post (message_prompt q fi) = .requestException m →
      generate_response q fi post = .ok ("Error calling LLM API: " ++ m))
    ∧ (post (message_prompt q fi) = .success [] →
      generate_response q fi post
        = .ok "Error: Could not extract answer from model response")
    ∧ (post (message_prompt q fi) = .success (⟨some t⟩ :: rest) →
      generate_response q fi post = .ok (pyStrip t)) := by
  refine ⟨fun hp => ?_, fun hp => ?_, fun hp => ?_⟩ <;>
    · unfold generate_response
      rw [hp]

/-- C4 witness: a well-formed response yields its stripped text. -/
theorem c4_generate_response_witness :
    generate_response "q" none postR = .ok (pyStrip "REMOTE ANSWER") :=
  (c4_generate_response_amended "q" none postR "m" "REMOTE ANSWER" []).2.2 rfl

/-- C6 counterexample: a file with no extension whose CSV probe reports empty
data (`EmptyDataError`) is classified `unknown`, not `csv` — even though the
Excel probe was never attempted and would have succeeded, refuting both
halves of the claim. -/
theorem c6_empty_csv_counterexample :
    identify_file_type "datafile" fmEmptyProbe = FileType.unknown
    ∧ FileType.unknown ≠ FileType.csv
    ∧ fmEmptyProbe.excelProbe = .ok [("Sheet1", dfEx)] :=
  ⟨rfl, by decide, rfl⟩

/-- C6 (amended): for an absent or unrecognized extension, the classifier
returns `csv` exactly when the CSV probe succeeds (including a header-only
file with zero data rows); when the CSV probe raises `EmptyDataError` — the
empty-file case — it returns `unknown` immediately, without attempting the
Excel probe. -/
theorem c6_empty_csv_amended (file_path : String) (f : FileModel)
    (hext : extension_map (strLower (splitextExt file_path)) = none) :
    (∀ m, f.csvProbe = .error (.emptyData m) →
      identify_file_type file_path f = FileType.unknown)
    ∧ (∀ df, f.csvProbe = .ok df →
      identify_file_type file_path f = FileType.csv) := by
  constructor
  · intro m hm
    simp only [identify_file_type, hext, hm]
  · intro df hdf
    simp only [identify_file_type, hext, hdf]

/-- C6 witness: a dotless name whose content parses as CSV classifies as
`csv`. -/
theorem c6_empty_csv_witness :
    identify_file_type "datafile" fmCsvEx = FileType.csv :=
  (c6_empty_csv_amended "datafile" fmCsvEx (by decide)).2 dfEx rfl

end App
